import Mathlib

/-!
Verification of the shortcut/window-state reconciliation core of the
millionaire desktop companion (src/src-tauri/src/lib.rs).

The Rust code is shallowly embedded: pure helpers (parse_modifiers,
parse_key, format_shortcut_display) become Lean functions over the same
string tables; the process-wide state (CURRENT_SHORTCUT, CONFIG_PATH, the
config file, the platform registration set) becomes an explicit World
record threaded through the stateful commands (update_shortcut,
save_window_size, load_config, save_config).  External collaborators are
modelled at their interface boundary: the file system maps a path to a
file state, the serde JSON codec stores a parsed record and yields it
back on read, and the platform global-shortcut registry is a parameter
deciding whether a registration attempt succeeds.
-/

/-- ASCII uppercasing of every character, modelling Rust str::to_uppercase
on the ASCII strings this application deals with (all recognized modifier
and key names are ASCII). -/
def to_uppercase (s : String) : String := String.mk (s.data.map Char.toUpper)

/-- Modifier bitset, modelling tauri_plugin_global_shortcut::Modifiers
restricted to the four flags this application uses. -/
structure Modifiers where
  alt : Bool
  control : Bool
  shift : Bool
  meta : Bool
  deriving DecidableEq, Repr

/-- Modifiers::empty(). -/
def Modifiers.empty : Modifiers := ⟨false, false, false, false⟩

/-- Body of the for loop of parse_modifiers (lib.rs:93-101): one token is
folded into the accumulated bitset, unrecognized tokens are skipped. -/
def parse_modifiers_step (result : Modifiers) (m : String) : Modifiers :=
  match to_uppercase m with
  | "ALT" | "OPTION" => { result with alt := true }
  | "CTRL" | "CONTROL" => { result with control := true }
  | "SHIFT" => { result with shift := true }
  | "META" | "COMMAND" | "CMD" | "SUPER" => { result with meta := true }
  | _ => result

/-- parse_modifiers (lib.rs:88-103): none on the empty list, otherwise the
fold of the recognized tokens into a bitset starting from empty. -/
def parse_modifiers (mods : List String) : Option Modifiers :=
  if mods.isEmpty then none
  else some (mods.foldl parse_modifiers_step Modifiers.empty)

/-- The key codes produced by parse_key, modelling
tauri_plugin_global_shortcut::Code restricted to the table of lib.rs. -/
inductive Code where
  | KeyA | KeyB | KeyC | KeyD | KeyE | KeyF | KeyG | KeyH | KeyI | KeyJ
  | KeyK | KeyL | KeyM | KeyN | KeyO | KeyP | KeyQ | KeyR | KeyS | KeyT
  | KeyU | KeyV | KeyW | KeyX | KeyY | KeyZ
  | Digit0 | Digit1 | Digit2 | Digit3 | Digit4
  | Digit5 | Digit6 | Digit7 | Digit8 | Digit9
  | F1 | F2 | F3 | F4 | F5 | F6 | F7 | F8 | F9 | F10 | F11 | F12
  | Space | Enter | Escape | Tab
  deriving DecidableEq, Repr

/-- parse_key (lib.rs:106-162): case-insensitive lookup of a key name
against the fixed table. -/
def parse_key (key : String) : Option Code :=
  match to_uppercase key with
  | "A" => some Code.KeyA
  | "B" => some Code.KeyB
  | "C" => some Code.KeyC
  | "D" => some Code.KeyD
  | "E" => some Code.KeyE
  | "F" => some Code.KeyF
  | "G" => some Code.KeyG
  | "H" => some Code.KeyH
  | "I" => some Code.KeyI
  | "J" => some Code.KeyJ
  | "K" => some Code.KeyK
  | "L" => some Code.KeyL
  | "M" => some Code.KeyM
  | "N" => some Code.KeyN
  | "O" => some Code.KeyO
  | "P" => some Code.KeyP
  | "Q" => some Code.KeyQ
  | "R" => some Code.KeyR
  | "S" => some Code.KeyS
  | "T" => some Code.KeyT
  | "U" => some Code.KeyU
  | "V" => some Code.KeyV
  | "W" => some Code.KeyW
  | "X" => some Code.KeyX
  | "Y" => some Code.KeyY
  | "Z" => some Code.KeyZ
  | "0" | "DIGIT0" => some Code.Digit0
  | "1" | "DIGIT1" => some Code.Digit1
  | "2" | "DIGIT2" => some Code.Digit2
  | "3" | "DIGIT3" => some Code.Digit3
  | "4" | "DIGIT4" => some Code.Digit4
  | "5" | "DIGIT5" => some Code.Digit5
  | "6" | "DIGIT6" => some Code.Digit6
  | "7" | "DIGIT7" => some Code.Digit7
  | "8" | "DIGIT8" => some Code.Digit8
  | "9" | "DIGIT9" => some Code.Digit9
  | "F1" => some Code.F1
  | "F2" => some Code.F2
  | "F3" => some Code.F3
  | "F4" => some Code.F4
  | "F5" => some Code.F5
  | "F6" => some Code.F6
  | "F7" => some Code.F7
  | "F8" => some Code.F8
  | "F9" => some Code.F9
  | "F10" => some Code.F10
  | "F11" => some Code.F11
  | "F12" => some Code.F12
  | "SPACE" => some Code.Space
  | "ENTER" => some Code.Enter
  | "ESCAPE" | "ESC" => some Code.Escape
  | "TAB" => some Code.Tab
  | _ => none

/-- A trigger descriptor, modelling Shortcut::new(mods, code): an optional
modifier bitset paired with a key code. -/
structure Shortcut where
  mods : Option Modifiers
  code : Code
  deriving DecidableEq, Repr

/-- AppConfig (lib.rs:18-24): the four persisted preference fields. -/
structure AppConfig where
  shortcut_modifiers : List String
  shortcut_key : String
  window_width : Float
  window_height : Float

/-- WINDOW_WIDTH constant (lib.rs:13). -/
def WINDOW_WIDTH : Float := 280.0

/-- WINDOW_HEIGHT constant (lib.rs:14). -/
def WINDOW_HEIGHT : Float := 300.0

/-- AppConfig::default (lib.rs:26-35). -/
def AppConfig.default : AppConfig :=
  { shortcut_modifiers := ["Alt"]
    shortcut_key := "M"
    window_width := WINDOW_WIDTH
    window_height := WINDOW_HEIGHT }

/-- The textual content of a config file at the serde boundary: either the
serialization of a record (read back as that record) or bytes that do not
parse as an AppConfig. -/
inductive FileData where
  | wellFormed (config : AppConfig)
  | malformed

/-- State of the file at one path: missing, present but unreadable
(fs::read_to_string fails), or readable content. -/
inductive FileState where
  | absent
  | unreadable
  | content (data : FileData)

/-- The process-wide mutable state touched by the core: CURRENT_SHORTCUT
(lib.rs:41), CONFIG_PATH (lib.rs:44), the file system reachable from the
config path, and the set of shortcuts currently registered with the
platform global-shortcut subsystem. -/
structure World where
  currentShortcut : Option (List String × String)
  configPath : Option String
  fs : String → FileState
  registered : List Shortcut

/-- get_config_path (lib.rs:47-49). -/
def get_config_path (w : World) : Option String := w.configPath

/-- path.exists() for the config path. -/
def path_exists (w : World) (path : String) : Bool :=
  match w.fs path with
  | FileState.absent => false
  | _ => true

/-- fs::read_to_string at the interface boundary: succeeds exactly on
readable content. -/
def read_to_string (w : World) (path : String) : Option FileData :=
  match w.fs path with
  | FileState.content data => some data
  | _ => none

/-- serde_json::from_str at the interface boundary: succeeds exactly on
well-formed content, yielding the stored record. -/
def from_str (data : FileData) : Option AppConfig :=
  match data with
  | FileData.wellFormed config => some config
  | FileData.malformed => none

/-- load_config (lib.rs:52-63): read and parse the file at the config
path, falling back to AppConfig::default at every failure point.  Total:
it never fails visibly. -/
def load_config (w : World) : AppConfig :=
  match get_config_path w with
  | some path =>
    if path_exists w path then
      match read_to_string w path with
      | some content =>
        match from_str content with
        | some config => config
        | none => AppConfig.default
      | none => AppConfig.default
    else AppConfig.default
  | none => AppConfig.default

/-- save_config (lib.rs:66-75): when a config path is set, serialize the
record and overwrite the file there; a missing path is silently ignored.
Directory creation (create_dir_all) needs no model because the modelled
file system has no directory state; serde_json::to_string_pretty and
fs::write are modelled as storing the record to be read back by
from_str. -/
def save_config (config : AppConfig) (w : World) : World :=
  match get_config_path w with
  | some path =>
    { w with
      fs := fun q =>
        if q = path then FileState.content (FileData.wellFormed config) else w.fs q }
  | none => w

/-- Body of the for loop of format_shortcut_display (lib.rs:215-223): one
token pushes its glyph onto the parts vector, unrecognized tokens push
nothing. -/
def format_step (parts : List String) (m : String) : List String :=
  match to_uppercase m with
  | "ALT" | "OPTION" => parts ++ ["⌥"]
  | "CTRL" | "CONTROL" => parts ++ ["⌃"]
  | "SHIFT" => parts ++ ["⇧"]
  | "META" | "COMMAND" | "CMD" | "SUPER" => parts ++ ["⌘"]
  | _ => parts

/-- format_shortcut_display (lib.rs:213-226): fold the modifier tokens
into a glyph vector, append the raw key name, join. -/
def format_shortcut_display (modifiers : List String) (key : String) : String :=
  let parts : List String := modifiers.foldl format_step []
  String.join (parts ++ [key])

/-- The unregister phase of update_shortcut (lib.rs:172-178): if a current
shortcut is recorded and its key still parses, unregister the
corresponding descriptor from the platform, ignoring failure (erasing a
shortcut that is not registered is a no-op). -/
def unregister_current (w : World) : World :=
  match w.currentShortcut with
  | some (old_mods, old_key) =>
    match parse_key old_key with
    | some old_code =>
      { w with registered := w.registered.erase ⟨parse_modifiers old_mods, old_code⟩ }
    | none => w
  | none => w

/-- update_shortcut (lib.rs:165-197).  The platform registration call is a
parameter deciding acceptance of the new descriptor (error values model
the platform rejection reason); on acceptance the descriptor is added to
the registered set.  Returns the command result together with the
resulting world. -/
def update_shortcut (register : Shortcut → Except String Unit)
    (modifiers : List String) (key : String) (w : World) :
    Except String String × World :=
  let mods := parse_modifiers modifiers
  match parse_key key with
  | none => (Except.error ("无效的按键: " ++ key), w)
  | some code =>
    let new_shortcut : Shortcut := ⟨mods, code⟩
    let w1 := unregister_current w
    match register new_shortcut with
    | Except.error e => (Except.error ("注册快捷键失败: " ++ e), w1)
    | Except.ok _ =>
      let w2 := { w1 with
        registered := new_shortcut :: w1.registered
        currentShortcut := some (modifiers, key) }
      let config := load_config w2
      let config := { config with shortcut_modifiers := modifiers, shortcut_key := key }
      let w3 := save_config config w2
      (Except.ok (format_shortcut_display modifiers key), w3)

/-- save_window_size (lib.rs:205-211): load-modify-save cycle changing
only the two window fields. -/
def save_window_size (width height : Float) (w : World) : World :=
  let config := load_config w
  let config := { config with window_width := width, window_height := height }
  save_config config w

/-- The Focused branch of the window event handler installed by
create_window (lib.rs:279-284): given the pinned flag, the reported focus
and the current visibility, the window is hidden when focus is lost and
the pinned flag is off, otherwise visibility is untouched. -/
def on_focus_event (pinned focused visible : Bool) : Bool :=
  if !focused && !pinned then false else visible

/-- The four canonical modifier names of the spec data model. -/
inductive ModName where
  | alt | control | shift | meta
  deriving DecidableEq, Repr

/-- Canonical reading of one modifier token: which of the four modifiers
it names, if any.  The arms mirror parse_modifiers_step. -/
def canon_modifier (m : String) : Option ModName :=
  match to_uppercase m with
  | "ALT" | "OPTION" => some ModName.alt
  | "CTRL" | "CONTROL" => some ModName.control
  | "SHIFT" => some ModName.shift
  | "META" | "COMMAND" | "CMD" | "SUPER" => some ModName.meta
  | _ => none

/-- The bitset of modifiers named anywhere in a token list. -/
def named_set (mods : List String) : Modifiers :=
  ⟨mods.any (fun m => canon_modifier m == some ModName.alt),
   mods.any (fun m => canon_modifier m == some ModName.control),
   mods.any (fun m => canon_modifier m == some ModName.shift),
   mods.any (fun m => canon_modifier m == some ModName.meta)⟩

/-- The uppercase spellings accepted by the parse_key table. -/
def recognized_key_names : List String :=
  ["A", "B", "C", "D", "E", "F", "G", "H", "I", "J", "K", "L", "M",
   "N", "O", "P", "Q", "R", "S", "T", "U", "V", "W", "X", "Y", "Z",
   "0", "DIGIT0", "1", "DIGIT1", "2", "DIGIT2", "3", "DIGIT3", "4", "DIGIT4",
   "5", "DIGIT5", "6", "DIGIT6", "7", "DIGIT7", "8", "DIGIT8", "9", "DIGIT9",
   "F1", "F2", "F3", "F4", "F5", "F6", "F7", "F8", "F9", "F10", "F11", "F12",
   "SPACE", "ENTER", "ESCAPE", "ESC", "TAB"]

/-- The glyph a recognized modifier token contributes to the display
string, following the arms of format_step. -/
def mod_symbol (m : String) : Option String :=
  match to_uppercase m with
  | "ALT" | "OPTION" => some "⌥"
  | "CTRL" | "CONTROL" => some "⌃"
  | "SHIFT" => some "⇧"
  | "META" | "COMMAND" | "CMD" | "SUPER" => some "⌘"
  | _ => none

/-- Rendering according to the spec sentence for format_display: modifier
symbols in the fixed order Alt, Control, Shift, Meta, each emitted only if
present, followed by the raw key name.  Stated from the spec words, to be
compared against format_shortcut_display. -/
def format_display_spec (modifiers : List String) (key : String) : String :=
  (if modifiers.any (fun m => canon_modifier m == some ModName.alt) then "⌥" else "") ++
  (if modifiers.any (fun m => canon_modifier m == some ModName.control) then "⌃" else "") ++
  (if modifiers.any (fun m => canon_modifier m == some ModName.shift) then "⇧" else "") ++
  (if modifiers.any (fun m => canon_modifier m == some ModName.meta) then "⌘" else "") ++
  key

/-- A concrete world after a normal startup: Alt+M loaded and registered,
config path set, no config file on disk yet. -/
def witness_world : World :=
  { currentShortcut := some (["Alt"], "M")
    configPath := some "config.json"
    fs := fun _ => FileState.absent
    registered := [⟨parse_modifiers ["Alt"], Code.KeyM⟩] }

/-- A concrete world before the config path is initialized. -/
def nopath_world : World :=
  { currentShortcut := none
    configPath := none
    fs := fun _ => FileState.absent
    registered := [] }

/-- A platform that rejects every registration attempt. -/
def reject_all : Shortcut → Except String Unit := fun _ => Except.error "busy"

/-- A platform that accepts every registration attempt. -/
def accept_all : Shortcut → Except String Unit := fun _ => Except.ok ()

/-! ### Helper lemmas -/

theorem parse_modifiers_step_canon (result : Modifiers) (m : String) :
    parse_modifiers_step result m =
      match canon_modifier m with
      | some ModName.alt => { result with alt := true }
      | some ModName.control => { result with control := true }
      | some ModName.shift => { result with shift := true }
      | some ModName.meta => { result with meta := true }
      | none => result := by
  unfold parse_modifiers_step canon_modifier
  generalize to_uppercase m = u
  split <;> rfl

theorem foldl_parse_modifiers (mods : List String) (acc : Modifiers) :
    mods.foldl parse_modifiers_step acc =
      ⟨acc.alt || (named_set mods).alt,
       acc.control || (named_set mods).control,
       acc.shift || (named_set mods).shift,
       acc.meta || (named_set mods).meta⟩ := by
  induction mods generalizing acc with
  | nil => simp [named_set]
  | cons m ms ih =>
    rw [List.foldl_cons, ih, parse_modifiers_step_canon]
    rcases h : canon_modifier m with _ | c
    · simp [named_set, h]
    · cases c <;> simp [named_set, h, Bool.or_assoc] <;> exact ⟨rfl, rfl, rfl⟩

theorem parse_modifiers_eq (mods : List String) :
    parse_modifiers mods =
      if mods.isEmpty then none else some (named_set mods) := by
  unfold parse_modifiers
  rw [foldl_parse_modifiers]
  rfl

theorem named_set_congr (l1 l2 : List String)
    (h : ∀ c : ModName,
      (∃ m ∈ l1, canon_modifier m = some c) ↔ (∃ m ∈ l2, canon_modifier m = some c)) :
    named_set l1 = named_set l2 := by
  have hf : ∀ c : ModName,
      (l1.any fun m => canon_modifier m == some c) =
        (l2.any fun m => canon_modifier m == some c) := by
    intro c
    apply Bool.eq_iff_iff.mpr
    simpa [List.any_eq_true] using h c
  unfold named_set
  rw [hf ModName.alt, hf ModName.control, hf ModName.shift, hf ModName.meta]

theorem unregister_current_currentShortcut (w : World) :
    (unregister_current w).currentShortcut = w.currentShortcut := by
  unfold unregister_current
  split
  · split <;> rfl
  · rfl

theorem unregister_current_fs (w : World) :
    (unregister_current w).fs = w.fs := by
  unfold unregister_current
  split
  · split <;> rfl
  · rfl

theorem unregister_current_configPath (w : World) :
    (unregister_current w).configPath = w.configPath := by
  unfold unregister_current
  split
  · split <;> rfl
  · rfl

theorem save_config_registered (config : AppConfig) (w : World) :
    (save_config config w).registered = w.registered := by
  unfold save_config
  split <;> rfl

theorem format_step_eq (parts : List String) (m : String) :
    format_step parts m = parts ++ (mod_symbol m).toList := by
  unfold format_step mod_symbol
  generalize to_uppercase m = u
  split <;> simp

theorem foldl_format_step (mods : List String) (acc : List String) :
    mods.foldl format_step acc = acc ++ mods.filterMap mod_symbol := by
  induction mods generalizing acc with
  | nil => simp
  | cons m ms ih =>
    rw [List.foldl_cons, ih, format_step_eq]
    rcases h : mod_symbol m with _ | sym <;> simp [List.filterMap_cons, h]

theorem join_append (l1 l2 : List String) :
    String.join (l1 ++ l2) = String.join l1 ++ String.join l2 := by
  apply String.ext
  simp [String.join_eq]

theorem join_singleton (s : String) : String.join [s] = s := by
  apply String.ext
  simp [String.join_eq]

/-! ### Claim theorems -/

/-- C1 (counterexample): at a concrete input where the platform rejects
the new trigger, update_shortcut does return the registration failure and
the platform is left with no registration, but the in-memory
CURRENT_SHORTCUT still holds the previous binding — it is not left empty,
contradicting the claim that no binding is registered in memory. -/
theorem update_shortcut_rejected_keeps_memory_counterexample :
    (update_shortcut reject_all ["Ctrl"] "K" witness_world).1 =
      Except.error "注册快捷键失败: busy" ∧
    (update_shortcut reject_all ["Ctrl"] "K" witness_world).2.registered = [] ∧
    (update_shortcut reject_all ["Ctrl"] "K" witness_world).2.currentShortcut =
      some (["Alt"], "M") := by
  exact ⟨by rfl, by decide, by decide⟩

/-- C1 (amended): when the platform rejects registration of the new
trigger, update_shortcut returns RegistrationFailed and the resulting
state is exactly the input state with the previous binding unregistered
from the platform: no trigger of this process remains registered once the
old one is removed and the new one refused, the config file is untouched —
but the in-memory CURRENT_SHORTCUT is left unchanged, still holding the
previous pair rather than being emptied. -/
theorem update_shortcut_rejected_state (register : Shortcut → Except String Unit)
    (modifiers : List String) (key : String) (w : World) (code : Code) (e : String)
    (hk : parse_key key = some code)
    (hr : register ⟨parse_modifiers modifiers, code⟩ = Except.error e) :
    update_shortcut register modifiers key w =
      (Except.error ("注册快捷键失败: " ++ e), unregister_current w) ∧
    (unregister_current w).currentShortcut = w.currentShortcut ∧
    (unregister_current w).fs = w.fs ∧
    (unregister_current w).configPath = w.configPath := by
  refine ⟨?_, unregister_current_currentShortcut w, unregister_current_fs w,
    unregister_current_configPath w⟩
  unfold update_shortcut
  rw [hk]
  simp [hr]

/-- C1 (witness): the amended theorem applied at a concrete rejected
rebind attempt. -/
theorem update_shortcut_rejected_state_witness :
    update_shortcut reject_all ["Shift"] "K" witness_world =
      (Except.error ("注册快捷键失败: " ++ "busy"), unregister_current witness_world) ∧
    (unregister_current witness_world).currentShortcut = witness_world.currentShortcut ∧
    (unregister_current witness_world).fs = witness_world.fs ∧
    (unregister_current witness_world).configPath = witness_world.configPath :=
  update_shortcut_rejected_state reject_all ["Shift"] "K" witness_world Code.KeyK "busy"
    (by decide) rfl

/-- C2: for an unrecognized key string, update_shortcut fails with
InvalidKey and the whole world — CURRENT_SHORTCUT, the platform
registration set, the file system — is returned untouched. -/
theorem update_shortcut_invalid_key_no_state_change
    (register : Shortcut → Except String Unit)
    (modifiers : List String) (key : String) (w : World)
    (hk : parse_key key = none) :
    update_shortcut register modifiers key w =
      (Except.error ("无效的按键: " ++ key), w) := by
  unfold update_shortcut
  rw [hk]

/-- C2 (witness): the theorem applied at a concrete unrecognized key. -/
theorem update_shortcut_invalid_key_witness :
    update_shortcut accept_all ["Alt"] "??" witness_world =
      (Except.error ("无效的按键: " ++ "??"), witness_world) :=
  update_shortcut_invalid_key_no_state_change accept_all ["Alt"] "??" witness_world
    (by decide)

/-- C3 (counterexample): format_shortcut_display follows the input order
of the modifier list and repeats duplicated tokens, so on the input
modifiers ["Shift", "Alt"] with key "K" it renders "⇧⌥K" while the fixed
Alt, Control, Shift, Meta order stated by the claim would render "⌥⇧K";
on ["alt", "ALT"] the Alt symbol is emitted twice. -/
theorem format_shortcut_display_fixed_order_counterexample :
    format_shortcut_display ["Shift", "Alt"] "K" = "⇧⌥K" ∧
    format_display_spec ["Shift", "Alt"] "K" = "⌥⇧K" ∧
    format_shortcut_display ["Shift", "Alt"] "K" ≠
      format_display_spec ["Shift", "Alt"] "K" ∧
    format_shortcut_display ["alt", "ALT"] "M" = "⌥⌥M" := by
  exact ⟨by decide, by decide, by decide, by decide⟩

/-- C3 (amended): format_shortcut_display renders one modifier symbol per
recognized token of the input list, in the order the tokens appear
(duplicated tokens emit duplicated symbols), skipping unrecognized tokens,
followed by the raw key name. -/
theorem format_shortcut_display_input_order (modifiers : List String) (key : String) :
    format_shortcut_display modifiers key =
      String.join (modifiers.filterMap mod_symbol) ++ key := by
  unfold format_shortcut_display
  rw [foldl_format_step]
  simp [join_append, join_singleton]

/-- C4: load_config returns exactly the hard-coded default record whenever
the config path is unset, the file does not exist, the content is not
readable, or parsing fails; being a total function into AppConfig it never
fails visibly. -/
theorem load_config_fallback_default (w : World)
    (h : w.configPath = none ∨ ∃ p, w.configPath = some p ∧
      (w.fs p = FileState.absent ∨ w.fs p = FileState.unreadable ∨
       w.fs p = FileState.content FileData.malformed)) :
    load_config w = AppConfig.default := by
  unfold load_config get_config_path
  rcases h with h | ⟨p, hp, hfs⟩
  · rw [h]
  · rw [hp]
    rcases hfs with hfs | hfs | hfs <;>
      simp [path_exists, read_to_string, from_str, hfs]

/-- C4 (witness): the theorem applied at the world before the config path
is initialized. -/
theorem load_config_fallback_default_witness :
    load_config nopath_world = AppConfig.default :=
  load_config_fallback_default nopath_world (Or.inl rfl)

/-- C5: on a focus-loss event the window is hidden exactly when the pinned
flag is false — while unpinned, focus loss always leaves the window
hidden; while pinned, the visibility is left exactly as it was, so no
hide transition ever occurs. -/
theorem focus_loss_hides_iff_unpinned :
    (∀ visible, on_focus_event false false visible = false) ∧
    (∀ visible, on_focus_event true false visible = visible) :=
  ⟨fun _ => rfl, fun _ => rfl⟩

/-- C6: with the config path set, save_config followed by load_config
yields the saved record back, for every record whose key name is
recognized. -/
theorem save_then_load_roundtrip (w : World) (c : AppConfig) (p : String)
    (hp : w.configPath = some p) (_hkey : parse_key c.shortcut_key ≠ none) :
    load_config (save_config c w) = c := by
  unfold load_config save_config get_config_path
  rw [hp]
  simp [path_exists, read_to_string, from_str, hp]

/-- C6 (witness): the round trip of a concrete Shift+K record through the
config file of a concrete world. -/
theorem save_then_load_roundtrip_witness :
    load_config (save_config (AppConfig.mk ["Shift"] "K" 300.0 400.0) witness_world)
      = AppConfig.mk ["Shift"] "K" 300.0 400.0 :=
  save_then_load_roundtrip witness_world (AppConfig.mk ["Shift"] "K" 300.0 400.0)
    "config.json" rfl (by decide)

/-- C7: parse_modifiers returns none on the empty list, and on non-empty
lists its result depends only on the set of recognized modifiers named in
the list — not on order, case, or repetition of the tokens. -/
theorem parse_modifiers_set_semantics :
    parse_modifiers [] = none ∧
    ∀ l1 l2 : List String, l1 ≠ [] → l2 ≠ [] →
      (∀ c : ModName,
        (∃ m ∈ l1, canon_modifier m = some c) ↔ (∃ m ∈ l2, canon_modifier m = some c)) →
      parse_modifiers l1 = parse_modifiers l2 := by
  refine ⟨rfl, ?_⟩
  intro l1 l2 h1 h2 hset
  rw [parse_modifiers_eq, parse_modifiers_eq]
  have e1 : l1.isEmpty = false := by simp [List.isEmpty_iff, h1]
  have e2 : l2.isEmpty = false := by simp [List.isEmpty_iff, h2]
  rw [e1, e2]
  exact congrArg some (named_set_congr l1 l2 hset)

/-- C7 (witness): the invariance applied to the inputs named by the claim,
parse_modifiers on ["alt", "ALT"] equals parse_modifiers on ["Alt"]. -/
theorem parse_modifiers_set_semantics_witness :
    parse_modifiers ["alt", "ALT"] = parse_modifiers ["Alt"] :=
  parse_modifiers_set_semantics.2 ["alt", "ALT"] ["Alt"] (by decide) (by decide)
    (by intro c; cases c <;> decide)

set_option maxHeartbeats 1600000 in
/-- C8: parse_key looks its argument up after uppercasing, so any two
strings with the same uppercasing get the same key code, and a string is
rejected (none) exactly when its uppercasing is outside the fixed table of
recognized names (letters, digits with DIGIT aliases, F1-F12, Space,
Enter, Escape/Esc, Tab). -/
theorem parse_key_case_insensitive_table :
    (∀ s t : String, to_uppercase s = to_uppercase t → parse_key s = parse_key t) ∧
    (∀ s : String, parse_key s = none ↔ to_uppercase s ∉ recognized_key_names) := by
  constructor
  · intro s t h
    unfold parse_key
    rw [h]
  · intro s
    unfold parse_key
    generalize to_uppercase s = u
    split <;> simp_all [recognized_key_names]

/-- C8 (witness): the case-invariance applied to a concrete recognized
name, and the rejection characterization at a concrete unrecognized
string. -/
theorem parse_key_case_insensitive_table_witness :
    parse_key "escape" = parse_key "Escape" ∧
    (parse_key "Q9" = none ↔ to_uppercase "Q9" ∉ recognized_key_names) :=
  ⟨parse_key_case_insensitive_table.1 "escape" "Escape" (by decide),
   parse_key_case_insensitive_table.2 "Q9"⟩

/-- C9: save_window_size performs a load-modify-save cycle: the record it
writes to the config file carries exactly the shortcut_modifiers and
shortcut_key of the record returned by the preceding load_config, with
only window_width and window_height replaced by the arguments. -/
theorem save_window_size_preserves_shortcut (w : World) (width height : Float)
    (p : String) (hp : w.configPath = some p) :
    (save_window_size width height w).fs p =
      FileState.content (FileData.wellFormed
        { shortcut_modifiers := (load_config w).shortcut_modifiers
          shortcut_key := (load_config w).shortcut_key
          window_width := width
          window_height := height }) := by
  unfold save_window_size save_config get_config_path
  rw [hp]
  simp

/-- C9 (witness): the theorem applied at a concrete world and size. -/
theorem save_window_size_preserves_shortcut_witness :
    (save_window_size 100.0 200.0 witness_world).fs "config.json" =
      FileState.content (FileData.wellFormed
        { shortcut_modifiers := (load_config witness_world).shortcut_modifiers
          shortcut_key := (load_config witness_world).shortcut_key
          window_width := 100.0
          window_height := 200.0 }) :=
  save_window_size_preserves_shortcut witness_world 100.0 200.0 "config.json" rfl

/-- C10: a non-empty modifier list whose tokens are all unrecognized
parses to some empty modifier set rather than none, and update_shortcut
with such a list and a recognized key succeeds whenever the platform
accepts, registering the key with the empty modifier set — unrecognized
modifier names are never a rejection cause. -/
theorem parse_modifiers_unrecognized_ignored (ms : List String) (key : String)
    (code : Code)
    (hne : ms ≠ [])
    (hun : ∀ m ∈ ms, canon_modifier m = none)
    (hk : parse_key key = some code) :
    parse_modifiers ms = some Modifiers.empty ∧
    ∀ (w : World) (register : Shortcut → Except String Unit),
      register ⟨some Modifiers.empty, code⟩ = Except.ok () →
      (update_shortcut register ms key w).1 =
        Except.ok (format_shortcut_display ms key) ∧
      (⟨some Modifiers.empty, code⟩ : Shortcut) ∈
        (update_shortcut register ms key w).2.registered := by
  have hmods : parse_modifiers ms = some Modifiers.empty := by
    rw [parse_modifiers_eq]
    have e : ms.isEmpty = false := by simp [List.isEmpty_iff, hne]
    have hall : ∀ c : ModName, (ms.any fun m => canon_modifier m == some c) = false := by
      intro c
      rw [List.any_eq_false]
      intro m hm
      simp [hun m hm]
    simp [e, named_set, hall ModName.alt, hall ModName.control, hall ModName.shift,
      hall ModName.meta, Modifiers.empty]
  refine ⟨hmods, ?_⟩
  intro w register hreg
  constructor
  · unfold update_shortcut
    rw [hk]
    simp [hmods, hreg]
  · unfold update_shortcut
    rw [hk]
    simp [hmods, hreg, save_config_registered]

/-- C10 (witness): the theorem applied at the concrete all-unrecognized
modifier list ["foo"] with key "K" on an accepting platform. -/
theorem parse_modifiers_unrecognized_ignored_witness :
    parse_modifiers ["foo"] = some Modifiers.empty ∧
    (update_shortcut accept_all ["foo"] "K" witness_world).1 =
      Except.ok (format_shortcut_display ["foo"] "K") := by
  have h := parse_modifiers_unrecognized_ignored ["foo"] "K" Code.KeyK
    (by decide) (by decide) (by decide)
  exact ⟨h.1, (h.2 witness_world accept_all rfl).1⟩
